import Mathlib

/-!
Verification of the MartyPC 8088 core and its hardware validator.

This file gives a shallow embedding, in Lean, of the parts of the MartyPC
source that the checked claims are about:

* the segmented linear-address computation and far-pointer operand reads
  (src/core/src/cpu_808x/addressing.rs);
* the prefetch instruction queue (src/core/src/cpu_808x/queue.rs);
* the Arduino hardware-validator register comparison, register-buffer
  serialization, queue-count correction, instruction begin logic and
  emulator bus-operation recording (src/core/src/arduino8088_validator/mod.rs).

Machine integers (u8, u16, u32) are embedded as Nat with explicit reduction
modulo 2 to the matching power wherever the Rust code masks or wraps.
Functions that panic in Rust (queue overrun and underrun) are embedded as
Option-returning functions, with none standing for the panic.
-/

namespace MartyPC

/-- Invalid-pointer sentinel from arduino8088_validator/mod.rs. -/
def V_INVALID_POINTER : Nat := 0xFFFFFFFF

/-- Upper memory boundary from arduino8088_validator/mod.rs. -/
def UPPER_MEMORY : Nat := 0xA0000

/-- Embedding of Cpu::calc_linear_address from cpu_808x/addressing.rs:
the Rust code computes (((segment as u32) << 4) + offset as u32) & 0xFFFFF.
The mask with 0xFFFFF = 2 ^ 20 - 1 is reduction modulo 2 ^ 20. -/
def calc_linear_address (segment offset : Nat) : Nat :=
  (segment * 16 + offset) % 0x100000

/-- Embedding of make_pointer from arduino8088_validator/mod.rs:
(((base as u32) << 4) + offset as u32) & 0xFFFFF, identical in form to
calc_linear_address. -/
def make_pointer (base offset : Nat) : Nat :=
  (base * 16 + offset) % 0x100000

/-- Register image with the fields of VRegisters (declared in
cpu_validator.rs, used throughout arduino8088_validator/mod.rs); every
field is a u16, embedded as a Nat intended to be below 2 ^ 16. -/
structure VRegisters where
  ax : Nat
  bx : Nat
  cx : Nat
  dx : Nat
  ss : Nat
  sp : Nat
  flags : Nat
  ip : Nat
  cs : Nat
  ds : Nat
  es : Nat
  bp : Nat
  si : Nat
  di : Nat
  deriving DecidableEq, Repr

/-- Validity of a register image: every u16 field is in range. -/
def VRegisters.InRange (r : VRegisters) : Prop :=
  r.ax < 65536 ∧ r.bx < 65536 ∧ r.cx < 65536 ∧ r.dx < 65536 ∧
  r.ss < 65536 ∧ r.sp < 65536 ∧ r.flags < 65536 ∧ r.ip < 65536 ∧
  r.cs < 65536 ∧ r.ds < 65536 ∧ r.es < 65536 ∧ r.bp < 65536 ∧
  r.si < 65536 ∧ r.di < 65536

instance (r : VRegisters) : Decidable r.InRange := by
  unfold VRegisters.InRange; infer_instance

/-- Low byte of a u16 value: Rust (x & 0xFF) as u8. -/
def lowByte (x : Nat) : Nat := x % 256

/-- High byte of a u16 value: Rust ((x >> 8) & 0xFF) as u8. -/
def highByte (x : Nat) : Nat := x / 256 % 256

/-- Embedding of ArduinoValidator::regs_to_buf from
arduino8088_validator/mod.rs: serializes a register image into the 28-byte
buffer, each field as a little-endian 16-bit word, in the source order
AX, BX, CX, DX, SS, SP, FLAGS, IP, CS, DS, ES, BP, SI, DI. -/
def regs_to_buf (regs : VRegisters) : List Nat :=
  [ lowByte regs.ax, highByte regs.ax,
    lowByte regs.bx, highByte regs.bx,
    lowByte regs.cx, highByte regs.cx,
    lowByte regs.dx, highByte regs.dx,
    lowByte regs.ss, highByte regs.ss,
    lowByte regs.sp, highByte regs.sp,
    lowByte regs.flags, highByte regs.flags,
    lowByte regs.ip, highByte regs.ip,
    lowByte regs.cs, highByte regs.cs,
    lowByte regs.ds, highByte regs.ds,
    lowByte regs.es, highByte regs.es,
    lowByte regs.bp, highByte regs.bp,
    lowByte regs.si, highByte regs.si,
    lowByte regs.di, highByte regs.di ]

/-- Little-endian 16-bit word read from a byte buffer at a given offset:
Rust buf[i] as u16 | ((buf[i+1] as u16) << 8). For byte values the
bitwise or of disjoint bit ranges is addition. -/
def bufWord (buf : List Nat) (i : Nat) : Nat :=
  buf.getD i 0 + 256 * buf.getD (i + 1) 0

/-- Embedding of ArduinoValidator::buf_to_regs from
arduino8088_validator/mod.rs: deserializes the 28-byte buffer back into a
register image, little-endian words at the source offsets. -/
def buf_to_regs (buf : List Nat) : VRegisters :=
  { ax := bufWord buf 0
    bx := bufWord buf 2
    cx := bufWord buf 4
    dx := bufWord buf 6
    ss := bufWord buf 8
    sp := bufWord buf 10
    flags := bufWord buf 12
    ip := bufWord buf 14
    cs := bufWord buf 16
    ds := bufWord buf 18
    es := bufWord buf 20
    bp := bufWord buf 22
    si := bufWord buf 24
    di := bufWord buf 26 }

/-- Three-state bus delay flag of the prefetch queue (QueueDelay in
cpu_808x/queue.rs). -/
inductive QueueDelay where
  | Read
  | Write
  | None
  deriving DecidableEq, Repr

/-- Modelled from the spec: QUEUE_MAX, the compile-time maximum queue
size, is declared in cpu_808x/mod.rs which is not among the provided
sources. Its exact value does not affect any property proved here, since
every buffer index is reduced modulo the configured size (4 for the
8088); any bound of at least 4 gives identical behavior. We use 6. -/
def QUEUE_MAX : Nat := 6

/-- The processor instruction queue (InstructionQueue in
cpu_808x/queue.rs): a ring buffer of bytes with front and back indices, a
current length, a single-byte preload slot and the delay flag. -/
structure InstructionQueue where
  size : Nat
  len : Nat
  back : Nat
  front : Nat
  q : List Nat
  preload : Option Nat
  delay : QueueDelay
  deriving DecidableEq, Repr

/-- Embedding of InstructionQueue::new from cpu_808x/queue.rs. -/
def InstructionQueue.new (size : Nat) : InstructionQueue :=
  { size := size
    len := 0
    back := 0
    front := 0
    q := List.replicate QUEUE_MAX 0
    preload := none
    delay := QueueDelay.None }

/-- Embedding of InstructionQueue::push8 from cpu_808x/queue.rs. The Rust
code panics (Queue overrun) when the queue is already at capacity; the
panic is embedded as none. After a successful push the delay flag is
Write exactly when the new length is 3, else None. -/
def InstructionQueue.push8 (self : InstructionQueue) (byte : Nat) :
    Option InstructionQueue :=
  if self.len < self.size then
    some { self with
      q := self.q.set self.front byte
      front := (self.front + 1) % self.size
      len := self.len + 1
      delay := if self.len + 1 = 3 then QueueDelay.Write else QueueDelay.None }
  else
    none

/-- Embedding of InstructionQueue::pop from cpu_808x/queue.rs. The Rust
code panics (Queue underrun) on an empty queue; the panic is embedded as
none. After a successful pop the delay flag is Read exactly when the
remaining length is at least 3, else None. -/
def InstructionQueue.pop (self : InstructionQueue) :
    Option (Nat × InstructionQueue) :=
  if 0 < self.len then
    some (self.q.getD self.back 0,
      { self with
        back := (self.back + 1) % self.size
        len := self.len - 1
        delay := if 3 ≤ self.len - 1 then QueueDelay.Read
                 else QueueDelay.None })
  else
    none

/-- Embedding of InstructionQueue::flush from cpu_808x/queue.rs: resets
length, indices, preload and delay (the buffer contents are kept). -/
def InstructionQueue.flush (self : InstructionQueue) : InstructionQueue :=
  { self with
    len := 0
    back := 0
    front := 0
    preload := none
    delay := QueueDelay.None }

/-- A queue command: one call to push8, pop or flush. -/
inductive QueueCmd where
  | push : Nat → QueueCmd
  | pop : QueueCmd
  | flush : QueueCmd
  deriving DecidableEq, Repr

/-- One queue command applied to a queue state; none when the command
violates capacity or emptiness (the source panics). -/
def queueStep (self : InstructionQueue) : QueueCmd → Option InstructionQueue
  | QueueCmd.push b => self.push8 b
  | QueueCmd.pop => (self.pop).map Prod.snd
  | QueueCmd.flush => some self.flush

/-- A list of queue commands run left to right. -/
def runQueue (self : InstructionQueue) :
    List QueueCmd → Option InstructionQueue
  | [] => some self
  | c :: cs => (queueStep self c).bind fun s => runQueue s cs

/-- Queue operation tag of a bus cycle (QueueOp, declared in
cpu_808x/mod.rs which is not among the provided sources; the four
variants Idle, First, Subsequent and Flush are fixed by the spec and by
the match in ArduinoValidator::correct_queue_counts). -/
inductive QueueOp where
  | Idle
  | First
  | Subsequent
  | Flush
  deriving DecidableEq, Repr

/-- Modelled from the spec: the cycle-state record (CycleState, declared
in cpu_validator.rs which is not among the provided sources): latched
address, data bus byte, control lines, queue length at cycle end and the
queue operation of the cycle. Only q_op and q_len are touched by
correct_queue_counts; the remaining fields ride along unchanged. -/
structure CycleState where
  addr : Nat
  data : Nat
  ale : Bool
  rd : Bool
  wr : Bool
  iom : Bool
  q_op : QueueOp
  q_len : Nat
  deriving DecidableEq, Repr

/-- The rewrite that ArduinoValidator::correct_queue_counts applies to
the cycle preceding a queue operation: First and Subsequent decrement its
queue length (u32 subtraction, embedded as truncated Nat subtraction),
Flush zeroes it, Idle leaves it unchanged. -/
def queueCountAdjust (s : CycleState) (op : QueueOp) : CycleState :=
  match op with
  | QueueOp.First => { s with q_len := s.q_len - 1 }
  | QueueOp.Subsequent => { s with q_len := s.q_len - 1 }
  | QueueOp.Flush => { s with q_len := 0 }
  | QueueOp.Idle => s

/-- Embedding of ArduinoValidator::correct_queue_counts from
arduino8088_validator/mod.rs. The source loop writes, for every index
i > 0, the queue length at index i - 1 according to the queue operation
at index i, and never writes a q_op field; so each element is adjusted
exactly once, by the operation of its successor, and the final element is
unchanged. -/
def correct_queue_counts : List CycleState → List CycleState
  | [] => []
  | [s] => [s]
  | s0 :: s1 :: rest =>
      queueCountAdjust s0 s1.q_op :: correct_queue_counts (s1 :: rest)

/-- Embedding of ArduinoValidator::validate_registers from
arduino8088_validator/mod.rs. The receiver fields it reads are passed
explicitly: regs1 is the emulator after-state current_instr.regs[1],
opcode and modrm identify the instruction, mask_flags is the
configuration flag, and regs is the physical CPU state. The function
mask_undefined_flags lives in arduino8088_validator/udmask.rs, which is
not among the provided sources; it is taken as the parameter maskFn.
The source compares ax, bx, cx, dx, cs, ds, es, then sp twice (the
if-blocks at lines 411 to 416 of mod.rs are duplicates), then bp, si and
di; it never compares ss (nor ip), and compares the flag words after
masking both sides when mask_flags is set. -/
def validate_registers (maskFn : Nat → Nat → Nat → Nat)
    (opcode modrm : Nat) (mask_flags : Bool)
    (regs1 regs : VRegisters) : Bool :=
  let emu_flags_masked :=
    if mask_flags then maskFn opcode modrm regs1.flags else regs1.flags
  let cpu_flags_masked :=
    if mask_flags then maskFn opcode modrm regs.flags else regs.flags
  decide (regs1.ax = regs.ax) && decide (regs1.bx = regs.bx) &&
  decide (regs1.cx = regs.cx) && decide (regs1.dx = regs.dx) &&
  decide (regs1.cs = regs.cs) && decide (regs1.ds = regs.ds) &&
  decide (regs1.es = regs.es) && decide (regs1.sp = regs.sp) &&
  decide (regs1.sp = regs.sp) && decide (regs1.bp = regs.bp) &&
  decide (regs1.si = regs.si) && decide (regs1.di = regs.di) &&
  decide (emu_flags_masked = cpu_flags_masked)

/-- Validation mode (ValidatorMode, declared in cpu_validator.rs which is
not among the provided sources; the two variants Cycle and Instruction
are fixed by the spec and by the match in begin_instruction). -/
inductive ValidatorMode where
  | Cycle
  | Instruction
  deriving DecidableEq, Repr

/-- The fields of ArduinoValidator that begin_instruction reads or
writes: the mode, the visit_once switch, the 1 MiB visited-flag array
(embedded as a function from addresses to Bool), the trigger address, the
per-instruction discard flag, the before-instruction register snapshot
current_instr.regs[0], and the end addresses. -/
structure ValidatorState where
  mode : ValidatorMode
  visit_once : Bool
  visited : Nat → Bool
  trigger_addr : Nat
  discard : Bool
  regs0 : VRegisters
  end_addr : Nat
  instr_end : Nat

/-- Embedding of ArduinoValidator::begin_instruction from
arduino8088_validator/mod.rs: it clears the discard flag, records the
register snapshot, clears the trigger address to the invalid sentinel
when the instruction pointer address has reached it, and sets the discard
flag only in Instruction mode when visit_once is on and the address is
upper memory already visited. The block that would set discard while the
trigger is configured and unreached is commented out in the source. The
calls that forward end_instr and end_program to the remote CPU are out of
scope; the field updates are kept. -/
def begin_instruction (self : ValidatorState) (regs : VRegisters)
    (end_instr end_program : Nat) : ValidatorState :=
  let self := { self with discard := false, regs0 := regs }
  let ip_addr := make_pointer regs.cs regs.ip
  let self :=
    if self.trigger_addr = ip_addr then
      { self with trigger_addr := V_INVALID_POINTER }
    else self
  let self :=
    match self.mode with
    | ValidatorMode.Instruction =>
        if self.visit_once = true ∧ UPPER_MEMORY ≤ ip_addr ∧
            self.visited ip_addr = true then
          { self with discard := true }
        else self
    | ValidatorMode.Cycle => self
  { self with end_addr := end_program, instr_end := end_instr }

/-- Bus operation kind (BusOpType in arduino8088_validator/mod.rs). -/
inductive BusOpType where
  | CodeRead
  | MemRead
  | MemWrite
  | IoRead
  | IoWrite
  deriving DecidableEq, Repr

/-- A recorded bus operation (BusOp in arduino8088_validator/mod.rs). -/
structure BusOp where
  op_type : BusOpType
  addr : Nat
  data : Nat
  flags : Nat
  deriving DecidableEq, Repr

/-- Origin flag for emulator bus operations (MOF_EMULATOR). -/
def MOF_EMULATOR : Nat := 0x01

/-- Bus kind of a byte access (BusType, declared in cpu_validator.rs
which is not among the provided sources; the two variants Mem and Io are
fixed by the matches in emu_read_byte and emu_write_byte). -/
inductive BusType where
  | Mem
  | Io
  deriving DecidableEq, Repr

/-- Read kind of a byte access (ReadType, declared in cpu_validator.rs
which is not among the provided sources; the two variants Code and Data
are fixed by the match in emu_read_byte). -/
inductive ReadType where
  | Code
  | Data
  deriving DecidableEq, Repr

/-- The fields of ArduinoValidator that emu_read_byte and emu_write_byte
read or write: the per-instruction discard flag, the visited-flag array,
and the emulator bus-operation sequence current_instr.emu_ops. -/
structure EmuRecordState where
  discard : Bool
  visited : Nat → Bool
  emu_ops : List BusOp

/-- Embedding of ArduinoValidator::emu_read_byte from
arduino8088_validator/mod.rs: returns immediately when the current
instruction is marked discard, otherwise appends a CodeRead, MemRead or
IoRead bus operation with the emulator origin flag. -/
def emu_read_byte (self : EmuRecordState) (addr data : Nat)
    (bus_type : BusType) (read_type : ReadType) : EmuRecordState :=
  if self.discard then self
  else
    match bus_type, read_type with
    | BusType.Mem, ReadType.Code =>
        { self with emu_ops := self.emu_ops ++
            [{ op_type := BusOpType.CodeRead
               addr := addr
               data := data
               flags := MOF_EMULATOR }] }
    | BusType.Mem, ReadType.Data =>
        { self with emu_ops := self.emu_ops ++
            [{ op_type := BusOpType.MemRead
               addr := addr
               data := data
               flags := MOF_EMULATOR }] }
    | BusType.Io, _ =>
        { self with emu_ops := self.emu_ops ++
            [{ op_type := BusOpType.IoRead
               addr := addr
               data := data
               flags := MOF_EMULATOR }] }

/-- Embedding of ArduinoValidator::emu_write_byte from
arduino8088_validator/mod.rs: first clears the visited flag at the
address masked to 20 bits (this happens before the discard check), then
returns when the current instruction is marked discard, otherwise appends
a MemWrite or IoWrite bus operation with the emulator origin flag. -/
def emu_write_byte (self : EmuRecordState) (addr data : Nat)
    (bus_type : BusType) : EmuRecordState :=
  let self := { self with
    visited := fun a => if a = addr % 0x100000 then false else self.visited a }
  if self.discard then self
  else
    match bus_type with
    | BusType.Mem =>
        { self with emu_ops := self.emu_ops ++
            [{ op_type := BusOpType.MemWrite
               addr := addr
               data := data
               flags := MOF_EMULATOR }] }
    | BusType.Io =>
        { self with emu_ops := self.emu_ops ++
            [{ op_type := BusOpType.IoWrite
               addr := addr
               data := data
               flags := MOF_EMULATOR }] }

/-- Segment selector (Segment, declared in cpu_808x/mod.rs which is not
among the provided sources; the five variants None, ES, CS, DS, SS are
fixed by the matches in cpu_808x/addressing.rs). -/
inductive Segment where
  | None
  | ES
  | CS
  | DS
  | SS
  deriving DecidableEq, Repr

/-- Segment override prefix state (SegmentOverride, declared in
cpu_808x/mod.rs which is not among the provided sources; the five
variants are fixed by the matches in cpu_808x/addressing.rs and
cpu_808x/decode.rs). -/
inductive SegmentOverride where
  | None
  | ES
  | CS
  | SS
  | DS
  deriving DecidableEq, Repr

/-- Modelled from the spec: a signed 8- or 16-bit displacement
(Displacement, declared in cpu_808x/mod.rs which is not among the
provided sources). Per the spec, displacements carry sign and get_u16
reinterprets them as unsigned 16-bit values (the bit pattern, that is the
value modulo 2 ^ 16) before the wrapping add. -/
inductive Displacement where
  | Disp8 : Int → Displacement
  | Disp16 : Int → Displacement
  deriving DecidableEq, Repr

/-- Unsigned 16-bit reinterpretation of a displacement. -/
def Displacement.get_u16 : Displacement → Nat
  | Displacement.Disp8 i => (i % 65536).toNat
  | Displacement.Disp16 i => (i % 65536).toNat

/-- The 24 effective-address forms plus the RegisterMode sentinel
(AddressingMode in cpu_808x/addressing.rs). -/
inductive AddressingMode where
  | BxSi
  | BxDi
  | BpSi
  | BpDi
  | Si
  | Di
  | Disp16 : Displacement → AddressingMode
  | Bx
  | BxSiDisp8 : Displacement → AddressingMode
  | BxDiDisp8 : Displacement → AddressingMode
  | BpSiDisp8 : Displacement → AddressingMode
  | BpDiDisp8 : Displacement → AddressingMode
  | SiDisp8 : Displacement → AddressingMode
  | DiDisp8 : Displacement → AddressingMode
  | BpDisp8 : Displacement → AddressingMode
  | BxDisp8 : Displacement → AddressingMode
  | BxSiDisp16 : Displacement → AddressingMode
  | BxDiDisp16 : Displacement → AddressingMode
  | BpSiDisp16 : Displacement → AddressingMode
  | BpDiDisp16 : Displacement → AddressingMode
  | SiDisp16 : Displacement → AddressingMode
  | DiDisp16 : Displacement → AddressingMode
  | BpDisp16 : Displacement → AddressingMode
  | BxDisp16 : Displacement → AddressingMode
  | RegisterMode
  deriving DecidableEq, Repr

/-- The 8-bit register names (Register8, declared in cpu_808x/mod.rs
which is not among the provided sources; the variants are fixed by the
matches in cpu_808x/addressing.rs). -/
inductive Register8 where
  | AH
  | AL
  | BH
  | BL
  | CH
  | CL
  | DH
  | DL
  deriving DecidableEq, Repr

/-- The 16-bit register names (Register16, declared in cpu_808x/mod.rs
which is not among the provided sources; the variants here are the ones
matched in cpu_808x/addressing.rs). -/
inductive Register16 where
  | AX
  | CX
  | DX
  | BX
  | SP
  | BP
  | SI
  | DI
  | ES
  | CS
  | SS
  | DS
  deriving DecidableEq, Repr

/-- Operand description variants (OperandType, declared in
cpu_808x/mod.rs which is not among the provided sources; the variants are
fixed by their uses in cpu_808x/decode.rs and cpu_808x/addressing.rs). -/
inductive OperandType where
  | NoOperand
  | Immediate8 : Nat → OperandType
  | Immediate16 : Nat → OperandType
  | Immediate8s : Int → OperandType
  | Relative8 : Int → OperandType
  | Relative16 : Int → OperandType
  | Offset8 : Nat → OperandType
  | Offset16 : Nat → OperandType
  | Register8 : Register8 → OperandType
  | Register16 : Register16 → OperandType
  | AddressingMode : AddressingMode → OperandType
  | FarAddress : Nat → Nat → OperandType
  | InvalidOperand
  deriving DecidableEq, Repr

/-- Wrapping 16-bit addition: Rust u16 wrapping_add. -/
def wadd16 (a b : Nat) : Nat := (a + b) % 65536

/-- The CPU fields read or written by calc_effective_address and
read_operand_farptr in cpu_808x/addressing.rs: the registers involved in
effective addresses, the four segment registers, the cached last
effective address last_ea, the pre-loaded EA operand word ea_opr, and the
segment override of the current instruction (self.i.segment_override in
the source, flattened here to one field). -/
structure CpuState where
  bx : Nat
  bp : Nat
  si : Nat
  di : Nat
  es : Nat
  cs : Nat
  ds : Nat
  ss : Nat
  last_ea : Nat
  ea_opr : Nat
  i_segment_override : SegmentOverride
  deriving DecidableEq, Repr

/-- The DS-defaulting segment selection of cpu_808x/addressing.rs (the
segment_value_base_ds match, appearing identically in
calc_effective_address and in the Register16 branch of
read_operand_farptr): a segment override replaces the DS default. -/
def segment_base_ds (self : CpuState) (so : SegmentOverride) :
    Nat × Segment :=
  match so with
  | SegmentOverride.None => (self.ds, Segment.DS)
  | SegmentOverride.ES => (self.es, Segment.ES)
  | SegmentOverride.CS => (self.cs, Segment.CS)
  | SegmentOverride.SS => (self.ss, Segment.SS)
  | SegmentOverride.DS => (self.ds, Segment.DS)

/-- The SS-defaulting segment selection of cpu_808x/addressing.rs (the
segment_value_base_ss match in calc_effective_address): for modes that
reference BP, a segment override replaces the SS default. -/
def segment_base_ss (self : CpuState) (so : SegmentOverride) :
    Nat × Segment :=
  match so with
  | SegmentOverride.None => (self.ss, Segment.SS)
  | SegmentOverride.ES => (self.es, Segment.ES)
  | SegmentOverride.CS => (self.cs, Segment.CS)
  | SegmentOverride.SS => (self.ss, Segment.SS)
  | SegmentOverride.DS => (self.ds, Segment.DS)

/-- Embedding of Cpu::calc_effective_address from cpu_808x/addressing.rs:
dispatches on the addressing mode, picking the DS- or SS-defaulting
segment base and the 16-bit wrapping offset computation of the source,
then caches the offset in last_ea. The RegisterMode arm panics in the
source and is embedded as none. -/
def calc_effective_address (self : CpuState) (mode : AddressingMode)
    (segment_override : SegmentOverride) :
    Option ((Nat × Segment × Nat) × CpuState) :=
  let dsBase := segment_base_ds self segment_override
  let ssBase := segment_base_ss self segment_override
  let res : Option (Nat × Segment × Nat) :=
    match mode with
    | AddressingMode.BxSi =>
        some (dsBase.1, dsBase.2, wadd16 self.bx self.si)
    | AddressingMode.BxDi =>
        some (dsBase.1, dsBase.2, wadd16 self.bx self.di)
    | AddressingMode.BpSi =>
        some (ssBase.1, ssBase.2, wadd16 self.bp self.si)
    | AddressingMode.BpDi =>
        some (ssBase.1, ssBase.2, wadd16 self.bp self.di)
    | AddressingMode.Si => some (dsBase.1, dsBase.2, self.si)
    | AddressingMode.Di => some (dsBase.1, dsBase.2, self.di)
    | AddressingMode.Disp16 d => some (dsBase.1, dsBase.2, d.get_u16)
    | AddressingMode.Bx => some (dsBase.1, dsBase.2, self.bx)
    | AddressingMode.BxSiDisp8 d =>
        some (dsBase.1, dsBase.2, wadd16 self.bx (wadd16 self.si d.get_u16))
    | AddressingMode.BxDiDisp8 d =>
        some (dsBase.1, dsBase.2, wadd16 self.bx (wadd16 self.di d.get_u16))
    | AddressingMode.BpSiDisp8 d =>
        some (ssBase.1, ssBase.2, wadd16 self.bp (wadd16 self.si d.get_u16))
    | AddressingMode.BpDiDisp8 d =>
        some (ssBase.1, ssBase.2, wadd16 self.bp (wadd16 self.di d.get_u16))
    | AddressingMode.SiDisp8 d =>
        some (dsBase.1, dsBase.2, wadd16 self.si d.get_u16)
    | AddressingMode.DiDisp8 d =>
        some (dsBase.1, dsBase.2, wadd16 self.di d.get_u16)
    | AddressingMode.BpDisp8 d =>
        some (ssBase.1, ssBase.2, wadd16 self.bp d.get_u16)
    | AddressingMode.BxDisp8 d =>
        some (dsBase.1, dsBase.2, wadd16 self.bx d.get_u16)
    | AddressingMode.BxSiDisp16 d =>
        some (dsBase.1, dsBase.2, wadd16 self.bx (wadd16 self.si d.get_u16))
    | AddressingMode.BxDiDisp16 d =>
        some (dsBase.1, dsBase.2, wadd16 self.bx (wadd16 self.di d.get_u16))
    | AddressingMode.BpSiDisp16 d =>
        some (ssBase.1, ssBase.2, wadd16 self.bp (wadd16 self.si d.get_u16))
    | AddressingMode.BpDiDisp16 d =>
        some (ssBase.1, ssBase.2, wadd16 self.bp (wadd16 self.di d.get_u16))
    | AddressingMode.SiDisp16 d =>
        some (dsBase.1, dsBase.2, wadd16 self.si d.get_u16)
    | AddressingMode.DiDisp16 d =>
        some (dsBase.1, dsBase.2, wadd16 self.di d.get_u16)
    | AddressingMode.BpDisp16 d =>
        some (ssBase.1, ssBase.2, wadd16 self.bp d.get_u16)
    | AddressingMode.BxDisp16 d =>
        some (dsBase.1, dsBase.2, wadd16 self.bx d.get_u16)
    | AddressingMode.RegisterMode => none
  match res with
  | none => none
  | some (seg_val, seg, offset) =>
      some ((seg_val, seg, offset), { self with last_ea := offset })

/-- Modelled from the spec: biu_read_u16 performs a little-endian 16-bit
read, low byte at the address and high byte at the next address (spec
section 4.4, all little-endian). The BIU implementation lives in
cpu_808x/biu.rs, which is not among the provided sources. Memory is a
read-only byte map here; bus-cycle side effects are out of scope. -/
def biu_read_u16 (mem : Nat → Nat) (addr : Nat) : Nat :=
  mem addr % 256 + 256 * (mem (addr + 1) % 256)

/-- Embedding of Cpu::read_operand_farptr from cpu_808x/addressing.rs.
For an AddressingMode operand the returned offset is the pre-loaded EA
operand word ea_opr and the segment is read at the linear effective
address plus 2; for the illegal Register16 operand form (LES r16, r16 or
LDS r16, r16) the offset is read at the cached last_ea and the segment at
last_ea wrapping-plus 2, both relative to the DS-defaulting override
segment of the current instruction; any other operand yields none. -/
def read_operand_farptr (self : CpuState) (mem : Nat → Nat)
    (operand : OperandType) (seg_override : SegmentOverride) :
    Option ((Nat × Nat) × CpuState) :=
  match operand with
  | OperandType.AddressingMode mode =>
      let offset := self.ea_opr
      match calc_effective_address self mode seg_override with
      | none => none
      | some ((segment_val, _segment, ea_offset), self2) =>
          let flat_addr := calc_linear_address segment_val ea_offset
          let segment := biu_read_u16 mem (flat_addr + 2)
          some ((segment, offset), self2)
  | OperandType.Register16 _ =>
      let base : Nat × Segment :=
        match self.i_segment_override with
        | SegmentOverride.None => (self.ds, Segment.DS)
        | SegmentOverride.ES => (self.es, Segment.ES)
        | SegmentOverride.CS => (self.cs, Segment.CS)
        | SegmentOverride.SS => (self.ss, Segment.SS)
        | SegmentOverride.DS => (self.ds, Segment.DS)
      let flat_addr := calc_linear_address base.1 self.last_ea
      let flat_addr2 := calc_linear_address base.1 (wadd16 self.last_ea 2)
      let offset := biu_read_u16 mem flat_addr
      let segment := biu_read_u16 mem flat_addr2
      some ((segment, offset), self)
  | _ => none

theorem runQueue_append (self : InstructionQueue) (l1 l2 : List QueueCmd) :
    runQueue self (l1 ++ l2) =
      (runQueue self l1).bind fun s => runQueue s l2 := by
  induction l1 generalizing self with
  | nil => simp [runQueue]
  | cons c cs ih =>
    simp only [List.cons_append, runQueue]
    cases queueStep self c with
    | none => rfl
    | some s => simp [ih]

/-- The delay flag after one successful queue command is determined by
that command and the resulting length, per the source of push8, pop and
flush. -/
theorem queueStep_delay (self s : InstructionQueue) (c : QueueCmd)
    (h : queueStep self c = some s) :
    (s.delay = QueueDelay.Write ↔
      (∃ b, c = QueueCmd.push b) ∧ s.len = 3) ∧
    (s.delay = QueueDelay.Read ↔ c = QueueCmd.pop ∧ 3 ≤ s.len) ∧
    (c = QueueCmd.flush →
      s.len = 0 ∧ s.preload = none ∧ s.delay = QueueDelay.None) := by
  cases c with
  | push b =>
    simp only [queueStep, InstructionQueue.push8] at h
    split at h
    · cases h
      refine ⟨?_, ?_, ?_⟩
      · constructor
        · intro hd
          refine ⟨⟨b, rfl⟩, ?_⟩
          by_cases h3 : self.len + 1 = 3
          · simpa using h3
          · simp only [if_neg h3] at hd; cases hd
        · rintro ⟨-, hlen⟩
          simp only at hlen
          simp [hlen]
      · constructor
        · intro hd
          by_cases h3 : self.len + 1 = 3 <;> simp [h3] at hd
        · rintro ⟨hc, -⟩; cases hc
      · intro hc; cases hc
    · cases h
  | pop =>
    simp only [queueStep, InstructionQueue.pop] at h
    split at h
    · simp only [Option.map_some', Option.some.injEq] at h
      subst h
      refine ⟨?_, ?_, ?_⟩
      · constructor
        · intro hd
          by_cases h3 : 3 ≤ self.len - 1 <;> simp [h3] at hd
        · rintro ⟨⟨b, hc⟩, -⟩; cases hc
      · constructor
        · intro hd
          refine ⟨rfl, ?_⟩
          by_cases h3 : 3 ≤ self.len - 1
          · simpa using h3
          · simp only [if_neg h3] at hd; cases hd
        · rintro ⟨-, hlen⟩
          simp only at hlen
          simp [if_pos hlen]
      · intro hc; cases hc
    · cases h
  | flush =>
    simp only [queueStep, InstructionQueue.flush] at h
    cases h
    refine ⟨?_, ?_, ?_⟩
    · simp
    · simp
    · intro _; exact ⟨rfl, rfl, rfl⟩

/-- Claim C6: after any valid sequence of push8, pop and flush commands
on the 8088 prefetch queue, the delay flag is Write iff the last command
was a push resulting in length exactly 3, Read iff the last command was a
pop leaving length at least 3; and when the last command was a flush the
length is 0, the preload slot is empty and the delay is None; the fresh
queue also has delay None. -/
theorem prefetch_queue_delay_invariant (ops : List QueueCmd)
    (q : InstructionQueue)
    (h : runQueue (InstructionQueue.new 4) ops = some q) :
    (q.delay = QueueDelay.Write ↔
      (∃ b, ops.getLast? = some (QueueCmd.push b)) ∧ q.len = 3) ∧
    (q.delay = QueueDelay.Read ↔
      ops.getLast? = some QueueCmd.pop ∧ 3 ≤ q.len) ∧
    (ops.getLast? = some QueueCmd.flush →
      q.len = 0 ∧ q.preload = none ∧ q.delay = QueueDelay.None) ∧
    (ops = [] → q.delay = QueueDelay.None) := by
  rcases List.eq_nil_or_concat ops with rfl | ⟨l, c, rfl⟩
  · simp only [runQueue, Option.some.injEq] at h
    subst h
    refine ⟨?_, ?_, ?_, ?_⟩ <;> simp [InstructionQueue.new]
  · simp only [List.concat_eq_append] at h ⊢
    rw [runQueue_append] at h
    cases hl : runQueue (InstructionQueue.new 4) l with
    | none => rw [hl] at h; cases h
    | some s =>
      rw [hl] at h
      simp only [Option.some_bind, runQueue] at h
      have hstep : queueStep s c = some q := by
        cases hc : queueStep s c with
        | none => rw [hc] at h; cases h
        | some s2 =>
          rw [hc] at h
          simp only [Option.some_bind, Option.some.injEq] at h
          rw [h]
      have hd := queueStep_delay s q c hstep
      have hlast : (l ++ [c]).getLast? = some c := by
        simp [List.getLast?_concat]
      refine ⟨?_, ?_, ?_, ?_⟩
      · rw [hlast]
        constructor
        · intro hw
          obtain ⟨⟨b, hb⟩, hlen⟩ := (hd.1).mp hw
          exact ⟨⟨b, by rw [hb]⟩, hlen⟩
        · rintro ⟨⟨b, hb⟩, hlen⟩
          exact (hd.1).mpr ⟨⟨b, by injection hb⟩, hlen⟩
      · rw [hlast]
        constructor
        · intro hr
          obtain ⟨hb, hlen⟩ := (hd.2.1).mp hr
          exact ⟨by rw [hb], hlen⟩
        · rintro ⟨hb, hlen⟩
          exact (hd.2.1).mpr ⟨by injection hb, hlen⟩
      · rw [hlast]
        intro hb
        exact hd.2.2 (by injection hb)
      · intro hnil
        exact absurd hnil (by simp)

/-- Claim C6 witness: the invariant evaluated after three pushes onto the
fresh queue, which leave length 3 and the Write delay flag set. -/
theorem prefetch_queue_delay_invariant_witness :
    (QueueDelay.Write = QueueDelay.Write ↔
      (∃ b, [QueueCmd.push 7, QueueCmd.push 8,
             QueueCmd.push 9].getLast? = some (QueueCmd.push b)) ∧
        (3 : Nat) = 3) ∧
    (QueueDelay.Write = QueueDelay.Read ↔
      [QueueCmd.push 7, QueueCmd.push 8,
       QueueCmd.push 9].getLast? = some QueueCmd.pop ∧ (3 : Nat) ≤ 3) ∧
    ([QueueCmd.push 7, QueueCmd.push 8,
      QueueCmd.push 9].getLast? = some QueueCmd.flush →
      (3 : Nat) = 0 ∧ (none : Option Nat) = none ∧
        QueueDelay.Write = QueueDelay.None) ∧
    ([QueueCmd.push 7, QueueCmd.push 8, QueueCmd.push 9] =
        ([] : List QueueCmd) →
      QueueDelay.Write = QueueDelay.None) :=
  prefetch_queue_delay_invariant
    [QueueCmd.push 7, QueueCmd.push 8, QueueCmd.push 9]
    { size := 4
      len := 3
      back := 0
      front := 3
      q := [7, 8, 9, 0, 0, 0]
      preload := none
      delay := QueueDelay.Write }
    (by decide)

/-- Claim C8: push8 on a queue at capacity fails (none, embedding the
source panic) rather than dropping or overwriting data, pop on an empty
queue likewise fails, and when capacity and emptiness are respected both
operations succeed, so the error branches are unreachable. -/
theorem queue_overrun_underrun_safety :
    (∀ (q : InstructionQueue) (b : Nat), q.len = q.size →
      q.push8 b = none) ∧
    (∀ (q : InstructionQueue) (b : Nat), q.len < q.size →
      (q.push8 b).isSome = true) ∧
    (∀ q : InstructionQueue, q.len = 0 → q.pop = none) ∧
    (∀ q : InstructionQueue, 0 < q.len → (q.pop).isSome = true) := by
  refine ⟨?_, ?_, ?_, ?_⟩
  · intro q b h
    simp [InstructionQueue.push8, h]
  · intro q b h
    simp [InstructionQueue.push8, h]
  · intro q h
    simp [InstructionQueue.pop, h]
  · intro q h
    simp [InstructionQueue.pop, h]

/-- Claim C8 witness: a full queue rejects a push, a fresh queue rejects
a pop, and the operations succeed one step inside the bounds. -/
theorem queue_overrun_underrun_safety_witness :
    (InstructionQueue.push8
      { size := 4
        len := 4
        back := 0
        front := 0
        q := [1, 2, 3, 4, 0, 0]
        preload := none
        delay := QueueDelay.None } 5 = none) ∧
    ((InstructionQueue.push8
      { size := 4
        len := 3
        back := 0
        front := 3
        q := [1, 2, 3, 0, 0, 0]
        preload := none
        delay := QueueDelay.None } 5).isSome = true) ∧
    ((InstructionQueue.new 4).pop = none) ∧
    ((InstructionQueue.pop
      { size := 4
        len := 1
        back := 0
        front := 1
        q := [1, 0, 0, 0, 0, 0]
        preload := none
        delay := QueueDelay.None }).isSome = true) :=
  ⟨queue_overrun_underrun_safety.1 _ 5 rfl,
   queue_overrun_underrun_safety.2.1 _ 5 (by decide),
   queue_overrun_underrun_safety.2.2.1 _ rfl,
   queue_overrun_underrun_safety.2.2.2 _ (by decide)⟩

theorem queueCountAdjust_q_op (s : CycleState) (op : QueueOp) :
    (queueCountAdjust s op).q_op = s.q_op := by
  cases op <;> rfl

theorem queueCountAdjust_idem (s : CycleState) (op : QueueOp)
    (h1 : op ≠ QueueOp.First) (h2 : op ≠ QueueOp.Subsequent) :
    queueCountAdjust (queueCountAdjust s op) op = queueCountAdjust s op := by
  cases op with
  | First => exact absurd rfl h1
  | Subsequent => exact absurd rfl h2
  | Flush => rfl
  | Idle => rfl

theorem correct_queue_counts_head (b : CycleState) (l : List CycleState) :
    ∃ c t, correct_queue_counts (b :: l) = c :: t ∧ c.q_op = b.q_op := by
  cases l with
  | nil => exact ⟨b, [], rfl, rfl⟩
  | cons s1 rest =>
      exact ⟨queueCountAdjust b s1.q_op, correct_queue_counts (s1 :: rest),
        rfl, queueCountAdjust_q_op b s1.q_op⟩

/-- Claim C3 counterexample: correct_queue_counts is not idempotent. On
the two-cycle trace below (queue length 2 then a First queue operation)
one application lowers the first queue length to 1 and a second
application lowers it again to 0. -/
theorem correct_queue_counts_not_idempotent :
    correct_queue_counts (correct_queue_counts
      [{ addr := 0
         data := 0
         ale := false
         rd := false
         wr := false
         iom := false
         q_op := QueueOp.Idle
         q_len := 2 },
       { addr := 0
         data := 0
         ale := false
         rd := false
         wr := false
         iom := false
         q_op := QueueOp.First
         q_len := 3 }]) ≠
    correct_queue_counts
      [{ addr := 0
         data := 0
         ale := false
         rd := false
         wr := false
         iom := false
         q_op := QueueOp.Idle
         q_len := 2 },
       { addr := 0
         data := 0
         ale := false
         rd := false
         wr := false
         iom := false
         q_op := QueueOp.First
         q_len := 3 }] := by
  decide

/-- Claim C3 (amended): correct_queue_counts is idempotent on cycle
traces in which no cycle after the first carries a First or Subsequent
queue operation (the decrement arms); only the Flush and Idle arms are
idempotent. -/
theorem correct_queue_counts_idempotent_no_reads :
    ∀ states : List CycleState,
    (∀ s ∈ states.drop 1,
      s.q_op ≠ QueueOp.First ∧ s.q_op ≠ QueueOp.Subsequent) →
    correct_queue_counts (correct_queue_counts states) =
      correct_queue_counts states := by
  intro states
  induction states with
  | nil => intro _; rfl
  | cons a t ih =>
    intro h
    cases t with
    | nil => rfl
    | cons b l =>
      have hb : b.q_op ≠ QueueOp.First ∧ b.q_op ≠ QueueOp.Subsequent :=
        h b (by simp)
      have htail : ∀ s ∈ (b :: l).drop 1,
          s.q_op ≠ QueueOp.First ∧ s.q_op ≠ QueueOp.Subsequent := by
        intro s hs
        exact h s (by simp at hs ⊢; exact Or.inr hs)
      obtain ⟨c, t2, hct, hcq⟩ := correct_queue_counts_head b l
      have step1 : correct_queue_counts (a :: b :: l) =
          queueCountAdjust a b.q_op :: correct_queue_counts (b :: l) := rfl
      rw [step1, hct]
      have step2 : correct_queue_counts
            (queueCountAdjust a b.q_op :: c :: t2) =
          queueCountAdjust (queueCountAdjust a b.q_op) c.q_op ::
            correct_queue_counts (c :: t2) := rfl
      rw [step2, hcq, queueCountAdjust_idem a b.q_op hb.1 hb.2, ← hct,
        ih htail, hct]

/-- Claim C3 (amended) witness: the idempotence evaluated on a concrete
two-cycle trace whose second cycle carries a Flush queue operation. -/
theorem correct_queue_counts_idempotent_no_reads_witness :
    correct_queue_counts (correct_queue_counts
      [{ addr := 10
         data := 1
         ale := true
         rd := false
         wr := false
         iom := false
         q_op := QueueOp.Idle
         q_len := 2 },
       { addr := 11
         data := 2
         ale := false
         rd := true
         wr := false
         iom := false
         q_op := QueueOp.Flush
         q_len := 0 }]) =
    correct_queue_counts
      [{ addr := 10
         data := 1
         ale := true
         rd := false
         wr := false
         iom := false
         q_op := QueueOp.Idle
         q_len := 2 },
       { addr := 11
         data := 2
         ale := false
         rd := true
         wr := false
         iom := false
         q_op := QueueOp.Flush
         q_len := 0 }] :=
  correct_queue_counts_idempotent_no_reads _ (by decide)

/-- Claim C4 counterexample: the boundary examples in the specification do
not hold of calc_linear_address. The code gives
calc_linear_address 0xF000 0xFFFF = 0xFFFFF (not 0xFFEF) and
calc_linear_address 0xFFFF 0x0010 = 0x00000 (not 0x0000F). -/
theorem calc_linear_address_spec_examples_false :
    ¬(calc_linear_address 0xF000 0xFFFF = 0xFFEF ∧
      calc_linear_address 0xFFFF 0x0010 = 0x0000F) := by
  decide

/-- Claim C4 (amended): the actual boundary values of the linear-address
function: calc_linear_address 0xF000 0xFFFF = 0xFFFFF (the 21-bit sum
0xF0000 + 0xFFFF fits in 20 bits, no wrap), and
calc_linear_address 0xFFFF 0x0010 = 0x00000 (0xFFFF0 + 0x10 = 0x100000 is
masked to 20 bits). -/
theorem calc_linear_address_boundaries :
    calc_linear_address 0xF000 0xFFFF = 0xFFFFF ∧
    calc_linear_address 0xFFFF 0x0010 = 0x00000 := by
  decide

/-- Claim C9: serializing a register image to the 28-byte buffer and
deserializing it back is the identity, and each field is stored
little-endian at the documented offset (0 AX, 2 BX, 4 CX, 6 DX, 8 SS,
10 SP, 12 FLAGS, 14 IP, 16 CS, 18 DS, 20 ES, 22 BP, 24 SI, 26 DI),
for every in-range register image. -/
theorem buf_to_regs_regs_to_buf (r : VRegisters) (h : r.InRange) :
    buf_to_regs (regs_to_buf r) = r ∧
    (regs_to_buf r).length = 28 ∧
    bufWord (regs_to_buf r) 0 = r.ax ∧
    bufWord (regs_to_buf r) 2 = r.bx ∧
    bufWord (regs_to_buf r) 4 = r.cx ∧
    bufWord (regs_to_buf r) 6 = r.dx ∧
    bufWord (regs_to_buf r) 8 = r.ss ∧
    bufWord (regs_to_buf r) 10 = r.sp ∧
    bufWord (regs_to_buf r) 12 = r.flags ∧
    bufWord (regs_to_buf r) 14 = r.ip ∧
    bufWord (regs_to_buf r) 16 = r.cs ∧
    bufWord (regs_to_buf r) 18 = r.ds ∧
    bufWord (regs_to_buf r) 20 = r.es ∧
    bufWord (regs_to_buf r) 22 = r.bp ∧
    bufWord (regs_to_buf r) 24 = r.si ∧
    bufWord (regs_to_buf r) 26 = r.di := by
  obtain ⟨ax, bx, cx, dx, ss, sp, flags, ip, cs, ds, es, bp, si, di⟩ := r
  obtain ⟨h1, h2, h3, h4, h5, h6, h7, h8, h9, h10, h11, h12, h13, h14⟩ := h
  refine ⟨?_, rfl, ?_, ?_, ?_, ?_, ?_, ?_, ?_, ?_, ?_, ?_, ?_, ?_, ?_, ?_⟩ <;>
    simp only [buf_to_regs, regs_to_buf, bufWord, lowByte, highByte,
      List.getD, List.get?, Option.getD_some, VRegisters.mk.injEq] at * <;>
    omega

/-- Claim C9 witness: the round trip evaluated at a concrete register
image. -/
theorem buf_to_regs_regs_to_buf_witness :
    buf_to_regs (regs_to_buf
      ⟨0x1234, 0x5678, 0x9ABC, 0xDEF0, 0x1000, 0xFFFE, 0xF002, 0x0100,
       0xF000, 0x2000, 0x3000, 0x4000, 0x5000, 0x6000⟩) =
      ⟨0x1234, 0x5678, 0x9ABC, 0xDEF0, 0x1000, 0xFFFE, 0xF002, 0x0100,
       0xF000, 0x2000, 0x3000, 0x4000, 0x5000, 0x6000⟩ :=
  (buf_to_regs_regs_to_buf
    ⟨0x1234, 0x5678, 0x9ABC, 0xDEF0, 0x1000, 0xFFFE, 0xF002, 0x0100,
     0xF000, 0x2000, 0x3000, 0x4000, 0x5000, 0x6000⟩ (by decide)).1

/-- Claim C1 (code bug evidence): validate_registers accepts two register
states that are identical except for SS, for any undefined-flag mask
function, so an SS mismatch alone never fails the comparison; the source
compares sp twice and never compares ss. -/
theorem validate_registers_ignores_ss (maskFn : Nat → Nat → Nat → Nat) :
    validate_registers maskFn 0x90 0 true
      { ax := 1
        bx := 2
        cx := 3
        dx := 4
        ss := 0x1111
        sp := 5
        flags := 0xF002
        ip := 6
        cs := 7
        ds := 8
        es := 9
        bp := 10
        si := 11
        di := 12 }
      { ax := 1
        bx := 2
        cx := 3
        dx := 4
        ss := 0x2222
        sp := 5
        flags := 0xF002
        ip := 6
        cs := 7
        ds := 8
        es := 9
        bp := 10
        si := 11
        di := 12 } = true := by
  simp [validate_registers]

/-- Claim C2 counterexample: a validator state with a configured trigger
address (0x20000, not the invalid sentinel) that the instruction pointer
address (0) has not reached does not get its instruction marked discard
by begin_instruction; the discard flag comes out false. -/
theorem begin_instruction_unreached_trigger_no_discard :
    (begin_instruction
      { mode := ValidatorMode.Cycle
        visit_once := false
        visited := fun _ => false
        trigger_addr := 0x20000
        discard := false
        regs0 := ⟨0, 0, 0, 0, 0, 0, 0, 0, 0, 0, 0, 0, 0, 0⟩
        end_addr := 0
        instr_end := 0 }
      ⟨0, 0, 0, 0, 0, 0, 2, 0, 0, 0, 0, 0, 0, 0⟩ 1 2).discard = false ∧
    (0x20000 : Nat) ≠ V_INVALID_POINTER ∧
    make_pointer 0 0 ≠ 0x20000 := by
  refine ⟨rfl, by decide, by decide⟩

/-- Claim C2 (amended): begin_instruction never marks an instruction
discard because of an unreached trigger (that source block is commented
out): the resulting discard flag is true exactly in Instruction mode with
visit_once set on an already visited upper-memory address, and the
trigger address is cleared to the invalid sentinel exactly when the
instruction pointer address has reached it. -/
theorem begin_instruction_discard_characterization
    (self : ValidatorState) (regs : VRegisters)
    (end_instr end_program : Nat) :
    (begin_instruction self regs end_instr end_program).discard =
      (decide (self.mode = ValidatorMode.Instruction) && self.visit_once &&
       decide (UPPER_MEMORY ≤ make_pointer regs.cs regs.ip) &&
       self.visited (make_pointer regs.cs regs.ip)) ∧
    (begin_instruction self regs end_instr end_program).trigger_addr =
      (if self.trigger_addr = make_pointer regs.cs regs.ip then
        V_INVALID_POINTER
      else self.trigger_addr) := by
  unfold begin_instruction
  cases hm : self.mode <;>
    by_cases ht : self.trigger_addr = make_pointer regs.cs regs.ip <;>
    by_cases hv : self.visit_once = true <;>
    by_cases hu : UPPER_MEMORY ≤ make_pointer regs.cs regs.ip <;>
    by_cases hw : self.visited (make_pointer regs.cs regs.ip) = true <;>
    simp [hm, ht, hv, hu, hw]

/-- Claim C10: emu_write_byte clears the visited flag at the address
masked to 20 bits even when the current instruction is marked discard,
and a discarded instruction appends no bus operation through either
emu_read_byte or emu_write_byte. -/
theorem emu_byte_hooks_discard_frame
    (self : EmuRecordState) (addr data : Nat)
    (bus_type : BusType) (read_type : ReadType) :
    ((emu_write_byte self addr data bus_type).visited
      (addr % 0x100000) = false) ∧
    (self.discard = true →
      (emu_read_byte self addr data bus_type read_type).emu_ops =
        self.emu_ops ∧
      (emu_write_byte self addr data bus_type).emu_ops = self.emu_ops) := by
  constructor
  · unfold emu_write_byte
    by_cases h : self.discard <;> cases bus_type <;> simp [h]
  · intro h
    unfold emu_read_byte emu_write_byte
    simp [h]

/-- Claim C10 witness: the hooks evaluated on a concrete discarded
instruction state; the write clears the visited flag and neither hook
records a bus operation. -/
theorem emu_byte_hooks_discard_frame_witness :
    ((emu_write_byte
      { discard := true, visited := fun _ => true, emu_ops := [] }
      0x12345 0xAB BusType.Mem).visited (0x12345 % 0x100000) = false) ∧
    ((emu_read_byte
        { discard := true, visited := fun _ => true, emu_ops := [] }
        0x12345 0xAB BusType.Mem ReadType.Code).emu_ops =
      ([] : List BusOp) ∧
     (emu_write_byte
        { discard := true, visited := fun _ => true, emu_ops := [] }
        0x12345 0xAB BusType.Mem).emu_ops = ([] : List BusOp)) :=
  ⟨(emu_byte_hooks_discard_frame
      { discard := true, visited := fun _ => true, emu_ops := [] }
      0x12345 0xAB BusType.Mem ReadType.Code).1,
   (emu_byte_hooks_discard_frame
      { discard := true, visited := fun _ => true, emu_ops := [] }
      0x12345 0xAB BusType.Mem ReadType.Code).2 rfl⟩

/-- Claim C7: a far-pointer operand read returns the pair
(segment, offset) with the offset being the little-endian 16-bit word at
the effective address and the segment the little-endian 16-bit word at
the effective address plus 2. For an AddressingMode operand the offset
was read at the effective address by the earlier EA-load microstep into
ea_opr (the hypothesis) and read_operand_farptr reads the segment at the
linear effective address plus 2; for the illegal register-source form
both words are read inside read_operand_farptr, offset first, at the
cached last_ea and at last_ea plus 2 (16-bit wrap) in the DS-defaulting
override segment. -/
theorem read_operand_farptr_little_endian (self : CpuState)
    (mem : Nat → Nat) (seg_override : SegmentOverride) :
    (∀ (mode : AddressingMode) (seg_val : Nat) (seg : Segment)
        (ea_offset : Nat) (self2 : CpuState),
      calc_effective_address self mode seg_override =
        some ((seg_val, seg, ea_offset), self2) →
      self.ea_opr = biu_read_u16 mem (calc_linear_address seg_val ea_offset) →
      read_operand_farptr self mem (OperandType.AddressingMode mode)
          seg_override =
        some ((biu_read_u16 mem (calc_linear_address seg_val ea_offset + 2),
               biu_read_u16 mem (calc_linear_address seg_val ea_offset)),
              self2)) ∧
    (∀ r : Register16,
      read_operand_farptr self mem (OperandType.Register16 r) seg_override =
        some ((biu_read_u16 mem
                 (calc_linear_address
                   (segment_base_ds self self.i_segment_override).1
                   (wadd16 self.last_ea 2)),
               biu_read_u16 mem
                 (calc_linear_address
                   (segment_base_ds self self.i_segment_override).1
                   self.last_ea)),
              self)) := by
  constructor
  · intro mode seg_val seg ea_offset self2 hcalc hea
    simp only [read_operand_farptr]
    rw [hcalc, ← hea]
  · intro r
    cases hso : self.i_segment_override <;>
      simp [read_operand_farptr, segment_base_ds, hso]

/-- Claim C7 witness: the far-pointer read evaluated at a concrete CPU
state, memory and addressing mode, for both operand forms. -/
theorem read_operand_farptr_little_endian_witness :
    (read_operand_farptr
      { bx := 0x0100
        bp := 0
        si := 0
        di := 0
        es := 0
        cs := 0
        ds := 0x2000
        ss := 0
        last_ea := 0x0040
        ea_opr := 0x3434
        i_segment_override := SegmentOverride.None }
      (fun _ => 0x34) (OperandType.AddressingMode AddressingMode.Bx)
      SegmentOverride.None =
      some ((biu_read_u16 (fun _ => 0x34)
               (calc_linear_address 0x2000 0x0100 + 2),
             biu_read_u16 (fun _ => 0x34)
               (calc_linear_address 0x2000 0x0100)),
            { bx := 0x0100
              bp := 0
              si := 0
              di := 0
              es := 0
              cs := 0
              ds := 0x2000
              ss := 0
              last_ea := 0x0100
              ea_opr := 0x3434
              i_segment_override := SegmentOverride.None })) ∧
    (read_operand_farptr
      { bx := 0x0100
        bp := 0
        si := 0
        di := 0
        es := 0
        cs := 0
        ds := 0x2000
        ss := 0
        last_ea := 0x0040
        ea_opr := 0x3434
        i_segment_override := SegmentOverride.None }
      (fun _ => 0x34) (OperandType.Register16 Register16.AX)
      SegmentOverride.None =
      some ((biu_read_u16 (fun _ => 0x34)
               (calc_linear_address
                 (segment_base_ds
                   { bx := 0x0100
                     bp := 0
                     si := 0
                     di := 0
                     es := 0
                     cs := 0
                     ds := 0x2000
                     ss := 0
                     last_ea := 0x0040
                     ea_opr := 0x3434
                     i_segment_override := SegmentOverride.None }
                   SegmentOverride.None).1
                 (wadd16 0x0040 2)),
             biu_read_u16 (fun _ => 0x34)
               (calc_linear_address
                 (segment_base_ds
                   { bx := 0x0100
                     bp := 0
                     si := 0
                     di := 0
                     es := 0
                     cs := 0
                     ds := 0x2000
                     ss := 0
                     last_ea := 0x0040
                     ea_opr := 0x3434
                     i_segment_override := SegmentOverride.None }
                   SegmentOverride.None).1
                 0x0040)),
            { bx := 0x0100
              bp := 0
              si := 0
              di := 0
              es := 0
              cs := 0
              ds := 0x2000
              ss := 0
              last_ea := 0x0040
              ea_opr := 0x3434
              i_segment_override := SegmentOverride.None })) :=
  ⟨(read_operand_farptr_little_endian _ (fun _ => 0x34)
      SegmentOverride.None).1 AddressingMode.Bx 0x2000 Segment.DS 0x0100 _
      (by decide) (by decide),
   (read_operand_farptr_little_endian _ (fun _ => 0x34)
      SegmentOverride.None).2 Register16.AX⟩

end MartyPC
